import Mathlib

/-!
Shallow embedding of the vault13 repository fragment:
`src/asset/proto.rs` (prototype taxonomy and classification) and
`src/graphics/mod.rs` (geometry primitives), with theorems settling the
specification's claims about them.

Machine integers: Rust `i32` values are modelled as `Int` together with the
two's-complement wraparound function `wrap32`; `u32`/`u8`/`usize` payload
fields are modelled as `Nat` (their values are never computed with here).
-/

namespace Vault13

/-- Smallest representable signed 32-bit value (`i32::min_value()`). -/
def i32_min : Int := -(2 ^ 31)

/-- Largest representable signed 32-bit value (`i32::max_value()`). -/
def i32_max : Int := 2 ^ 31 - 1

/-- Two's-complement wraparound of an integer into the signed 32-bit range,
as performed by Rust's native `i32` arithmetic on overflow. -/
def wrap32 (n : Int) : Int := (n + 2 ^ 31) % 2 ^ 32 - 2 ^ 31

/-- Rust `i32` addition (`+` with standard wraparound overflow behavior). -/
def i32_add (a b : Int) : Int := wrap32 (a + b)

/-- Rust `i32` unary negation (wrapping; `-i32::MIN` wraps to `i32::MIN`). -/
def i32_neg (a : Int) : Int := wrap32 (-a)

/-- `Point` from `src/graphics/mod.rs`: a 2-integer vector value type. -/
structure Point where
  x : Int
  y : Int
deriving Repr, DecidableEq

/-- `Point::new`. -/
def Point.new (x y : Int) : Point := ⟨x, y⟩

/-- `Point::add` (also `impl ops::Add for Point`): componentwise `i32` addition. -/
def Point.add (p q : Point) : Point := Point.new (i32_add p.x q.x) (i32_add p.y q.y)

/-- `impl ops::Neg for Point`: componentwise `i32` negation. -/
def Point.neg (p : Point) : Point := ⟨i32_neg p.x, i32_neg p.y⟩

/-- `Point::sub` (`impl ops::Sub for Point`). -/
def Point.sub (p q : Point) : Point := Point.new (i32_add p.x (i32_neg q.x)) (i32_add p.y (i32_neg q.y))

/-- `Point::tuple`. -/
def Point.tuple (p : Point) : Int × Int := (p.x, p.y)

/-- `ElevatedPoint` from `src/graphics/mod.rs`: a `Point` paired with a
non-negative elevation index (`usize`). -/
structure ElevatedPoint where
  elevation : Nat
  point : Point
deriving Repr, DecidableEq

/-- `Point::elevated`. -/
def Point.elevated (p : Point) (elevation : Nat) : ElevatedPoint :=
  ⟨elevation, p⟩

/-- `Rect` from `src/graphics/mod.rs`: axis-aligned rectangle given by its
four edge coordinates. -/
structure Rect where
  left : Int
  top : Int
  right : Int
  bottom : Int
deriving Repr, DecidableEq

/-- `Rect::empty`. -/
def Rect.empty : Rect := ⟨0, 0, 0, 0⟩

/-- `Rect::full`: left/top at `i32::min_value()`, right/bottom at
`i32::max_value()`. -/
def Rect.full : Rect := ⟨i32_min, i32_min, i32_max, i32_max⟩

/-- `Rect::with_size`: `right = left + width`, `bottom = top + height`
(`i32` addition). -/
def Rect.with_size (left top width height : Int) : Rect :=
  ⟨left, top, i32_add left width, i32_add top height⟩

/-- `Rect::with_points`. -/
def Rect.with_points (top_left bottom_right : Point) : Rect :=
  ⟨top_left.x, top_left.y, bottom_right.x, bottom_right.y⟩

/-- `Rect::intersect`: componentwise max of left/top and min of right/bottom. -/
def Rect.intersect (r other : Rect) : Rect :=
  ⟨max r.left other.left, max r.top other.top,
   min r.right other.right, min r.bottom other.bottom⟩

/-- `Rect::translate`: shift both corners by a delta (`i32` addition). -/
def Rect.translate (r : Rect) (x y : Int) : Rect :=
  ⟨i32_add r.left x, i32_add r.top y, i32_add r.right x, i32_add r.bottom y⟩

/-- `Rect::is_empty`: `left >= right && top >= bottom`. -/
def Rect.is_empty (r : Rect) : Bool :=
  decide (r.left ≥ r.right) && decide (r.top ≥ r.bottom)

/-- `Rect::contains`: `x >= left && x < right && y >= top && y < bottom`. -/
def Rect.contains (r : Rect) (x y : Int) : Bool :=
  decide (x ≥ r.left) && decide (x < r.right) &&
    decide (y ≥ r.top) && decide (y < r.bottom)

/-- `Rect::top_left`. -/
def Rect.top_left (r : Rect) : Point := Point.new r.left r.top

/-- Modelled from the spec: `Pid` (defined in the excluded `asset/proto/id.rs`),
an opaque typed integer handle identifying a prototype. -/
structure Pid where
  raw : Nat
deriving Repr, DecidableEq

/-- Modelled from the spec: `FrameId` (defined in the excluded `asset/frame`
module), an opaque typed integer handle for a visual frame asset. -/
structure FrameId where
  raw : Nat
deriving Repr, DecidableEq

/-- Modelled from the spec: `Perk`, an external named character-trait
reference, treated as an opaque discriminator. -/
structure Perk where
  raw : Nat
deriving Repr, DecidableEq

/-- Modelled from the spec: `Stat`, an external closed enumerator set,
treated as an opaque discriminator. -/
structure Stat where
  raw : Nat
deriving Repr, DecidableEq

/-- Modelled from the spec: `Skill`, an external closed enumerator set,
treated as an opaque discriminator. -/
structure Skill where
  raw : Nat
deriving Repr, DecidableEq

/-- Modelled from the spec: `DamageKind`, an external closed enumerator set,
treated as an opaque discriminator. -/
structure DamageKind where
  raw : Nat
deriving Repr, DecidableEq

/-- Modelled from the spec: `Material`, an external closed enumerator set,
treated as an opaque discriminator. -/
structure Material where
  raw : Nat
deriving Repr, DecidableEq

/-- Modelled from the spec: `WeaponKind` (animation code), an external
closed enumerator set, treated as an opaque discriminator. -/
structure WeaponKind where
  raw : Nat
deriving Repr, DecidableEq

/-- Modelled from the spec: `AttackKind`, an external closed enumerator set,
treated as an opaque discriminator. -/
structure AttackKind where
  raw : Nat
deriving Repr, DecidableEq

/-- Modelled from the spec: the general `Flag` bit constants of `Proto`,
treated as opaque bits. -/
structure Flag where
  raw : Nat
deriving Repr, DecidableEq

/-- Modelled from the spec: the extended `FlagExt` bit constants of `Proto`,
treated as opaque bits. -/
structure FlagExt where
  raw : Nat
deriving Repr, DecidableEq

/-- Modelled from the spec: the external `BitFlags` container, a fixed-width
integer of named bits with set-algebra operations. -/
structure BitFlags (α : Type) where
  bits : Nat
deriving Repr, DecidableEq

/-- Modelled from the spec: the external `EnumMap` container, a total
(default-filled) lookup from an enumerator key to a value. -/
def EnumMap (K V : Type) : Type := K → V

/-- `RangeInclusive<i32>` (Rust standard library), as used by `Weapon::damage`. -/
structure RangeInclusive32 where
  lo : Int
  hi : Int
deriving Repr, DecidableEq

/-- `ItemKind` — modelled from the spec: the closed 7-member item kind
enumeration that `ItemVariant::kind` maps into (declared outside `src/`). -/
inductive ItemKind where
  | Armor
  | Container
  | Drug
  | Weapon
  | Ammo
  | Misc
  | Key
deriving Repr, DecidableEq

/-- `SceneryKind` — modelled from the spec: the closed scenery kind
enumeration with the Ladder direction split (declared outside `src/`). -/
inductive SceneryKind where
  | Door
  | Stairs
  | Elevator
  | LadderUp
  | LadderDown
  | Misc
deriving Repr, DecidableEq

/-- `ExactEntityKind` — modelled from the spec: the fully-refined
classification, coarse kind further refined for Item and Scenery
(declared outside `src/`). -/
inductive ExactEntityKind where
  | Item (k : ItemKind)
  | Critter
  | Scenery (k : SceneryKind)
  | Wall
  | SqrTile
  | Misc
deriving Repr, DecidableEq

/-- `EntityKind` — modelled from the spec: the full entity-kind enumeration
(declared outside `src/`); the kinds having prototype definitions come first
in declaration order, ending at the `Misc` sentinel, followed by
runtime-only kinds that have no static template. -/
inductive EntityKind where
  | Item
  | Critter
  | Scenery
  | Wall
  | SqrTile
  | Misc
  | Interface
  | Inventory
  | Head
  | Background
  | Skilldex
deriving Repr, DecidableEq

/-- Declaration-order ordinal of an `EntityKind` enumerator. -/
def EntityKind.ord : EntityKind → Nat
  | .Item => 0
  | .Critter => 1
  | .Scenery => 2
  | .Wall => 3
  | .SqrTile => 4
  | .Misc => 5
  | .Interface => 6
  | .Inventory => 7
  | .Head => 8
  | .Background => 9
  | .Skilldex => 10

/-- The full `EntityKind` enumeration in declaration order. -/
def EntityKind.all : List EntityKind :=
  [.Item, .Critter, .Scenery, .Wall, .SqrTile, .Misc,
   .Interface, .Inventory, .Head, .Background, .Skilldex]

/-- Modelled from the spec: the external `enum_iter` lazy-sequence
abstraction over an inclusive contiguous enumerator range starting at the
first enumerator (`enum_iter(..=bound)`), realized as the finite list of
enumerators up to and including the bound, in declaration order. -/
def enum_iter (bound : EntityKind) : List EntityKind :=
  EntityKind.all.filter (fun k => decide (k.ord ≤ bound.ord))

/-- `ContainerFlag` from `src/asset/proto.rs`. -/
inductive ContainerFlag where
  | CannotPickUp
  | MagicHandsGround
deriving Repr, DecidableEq

/-- `Armor` from `src/asset/proto.rs`. -/
structure Armor where
  armor_class : Int
  damage_resistance : EnumMap DamageKind Int
  damage_threshold : EnumMap DamageKind Int
  perk : Option Perk
  male_fid : FrameId
  female_fid : FrameId

/-- `Container` from `src/asset/proto.rs`. -/
structure Container where
  capacity : Int
  flags : BitFlags ContainerFlag

/-- `DrugEffectModifier` from `src/asset/proto.rs`. -/
inductive DrugEffectModifier where
  | Fixed (v : Int)
  | Random (lo hi : Int)
deriving Repr, DecidableEq

/-- `DrugEffect` from `src/asset/proto.rs`. -/
structure DrugEffect where
  delay : Nat
  stat : Stat
  modifier : DrugEffectModifier
deriving Repr, DecidableEq

/-- `DrugAddiction` from `src/asset/proto.rs`. -/
structure DrugAddiction where
  chance : Nat
  perk : Option Perk
  delay : Nat
deriving Repr, DecidableEq

/-- `Drug` from `src/asset/proto.rs`. -/
structure Drug where
  effects : List DrugEffect
  addiction : DrugAddiction
deriving Repr, DecidableEq

/-- `Dual<T>` from `src/asset/proto.rs`: primary/secondary pair. -/
structure Dual (T : Type) where
  primary : T
  secondary : T
deriving Repr, DecidableEq

/-- `Weapon` from `src/asset/proto.rs`. -/
structure Weapon where
  attack_kind : Dual AttackKind
  animation_code : WeaponKind
  damage : RangeInclusive32
  damage_kind : DamageKind
  max_range : Dual Int
  projectile_pid : Option Pid
  min_strength : Int
  ap_cost : Dual Int
  crit_failure_table : Int
  perk : Option Perk
  burst_bullet_count : Int
  caliber : Int
  ammo_pid : Option Pid
  max_ammo : Int
  sound_id : Nat
deriving Repr, DecidableEq

/-- `Ammo` from `src/asset/proto.rs`. -/
structure Ammo where
  caliber : Int
  magazine_size : Int
  ac_modifier : Int
  dr_modifier : Int
  damage_mult : Int
  damage_div : Int
deriving Repr, DecidableEq

/-- `MiscItem` from `src/asset/proto.rs`. -/
structure MiscItem where
  charge_pid : Option Pid
  charge_kind : Nat
  max_charges : Int
deriving Repr, DecidableEq

/-- `Key` from `src/asset/proto.rs`. -/
structure Key where
  id : Int
deriving Repr, DecidableEq

/-- `ItemVariant` from `src/asset/proto.rs`: closed union over the seven
item sub-cases. -/
inductive ItemVariant where
  | Armor (v : Armor)
  | Container (v : Container)
  | Drug (v : Drug)
  | Weapon (v : Weapon)
  | Ammo (v : Ammo)
  | Misc (v : MiscItem)
  | Key (v : Key)

/-- `ItemVariant::kind` from `src/asset/proto.rs`. -/
def ItemVariant.kind : ItemVariant → ItemKind
  | .Armor _ => ItemKind.Armor
  | .Container _ => ItemKind.Container
  | .Drug _ => ItemKind.Drug
  | .Weapon _ => ItemKind.Weapon
  | .Ammo _ => ItemKind.Ammo
  | .Misc _ => ItemKind.Misc
  | .Key _ => ItemKind.Key

/-- `Item` from `src/asset/proto.rs`. -/
structure Item where
  material : Material
  size : Int
  weight : Int
  price : Int
  inventory_fid : Option FrameId
  sound_id : Nat
  item : ItemVariant

/-- `CritterFlag` from `src/asset/proto.rs`. -/
inductive CritterFlag where
  | NoBarter
  | NoSteal
  | NoDrop
  | NoLoseLimbs
  | Ages
  | NoHeal
  | Invulnerable
  | NoDeadBody
  | SpecialDeath
  | RangedMelee
  | NoKnock
deriving Repr, DecidableEq

/-- `CritterKillKind` from `src/asset/proto.rs`. -/
inductive CritterKillKind where
  | Man
  | Woman
  | Children
  | SuperMutant
  | Ghoul
  | Brahmin
  | Radscorpion
  | Rat
  | Floater
  | Centaur
  | Robot
  | Dog
  | Manti
  | DeathClaw
  | Plant
  | Gecko
  | Alien
  | GiantAnt
  | BigBadBoss
deriving Repr, DecidableEq

/-- `Critter` from `src/asset/proto.rs`. -/
structure Critter where
  flags : BitFlags CritterFlag
  base_stats : EnumMap Stat Int
  bonus_stats : EnumMap Stat Int
  skills : EnumMap Skill Int
  body_kind : Nat
  experience : Int
  kill_kind : CritterKillKind
  damage_kind : DamageKind
  head_fid : Option FrameId
  ai_packet : Nat
  team_id : Nat

/-- `Door` from `src/asset/proto.rs`. -/
structure Door where
  flags : Nat
  key_id : Nat
deriving Repr, DecidableEq

/-- `Stairs` from `src/asset/proto.rs`. -/
structure Stairs where
  elevation_and_tile : Nat
  map_id : Nat
deriving Repr, DecidableEq

/-- `Elevator` from `src/asset/proto.rs`. -/
structure Elevator where
  kind : Nat
  level : Nat
deriving Repr, DecidableEq

/-- `LadderKind` from `src/asset/proto.rs`. -/
inductive LadderKind where
  | Up
  | Down
deriving Repr, DecidableEq

/-- `Ladder` from `src/asset/proto.rs`. -/
structure Ladder where
  kind : LadderKind
  elevation_and_tile : Nat
deriving Repr, DecidableEq

/-- `SceneryVariant` from `src/asset/proto.rs`: closed union over the five
scenery sub-cases. -/
inductive SceneryVariant where
  | Door (v : Door)
  | Stairs (v : Stairs)
  | Elevator (v : Elevator)
  | Ladder (v : Ladder)
  | Misc
deriving Repr, DecidableEq

/-- `SceneryVariant::kind` from `src/asset/proto.rs`: Ladder splits on its
direction, all other cases map to their fixed kind. -/
def SceneryVariant.kind : SceneryVariant → SceneryKind
  | .Door _ => SceneryKind.Door
  | .Stairs _ => SceneryKind.Stairs
  | .Elevator _ => SceneryKind.Elevator
  | .Ladder l =>
    match l.kind with
    | LadderKind.Up => SceneryKind.LadderUp
    | LadderKind.Down => SceneryKind.LadderDown
  | .Misc => SceneryKind.Misc

/-- `Scenery` from `src/asset/proto.rs`. -/
structure Scenery where
  material : Material
  sound_id : Nat
  scenery : SceneryVariant
deriving Repr, DecidableEq

/-- `Wall` from `src/asset/proto.rs`. -/
structure Wall where
  material : Material
deriving Repr, DecidableEq

/-- `SqrTile` from `src/asset/proto.rs`. -/
structure SqrTile where
  material : Material
deriving Repr, DecidableEq

/-- `Variant` from `src/asset/proto.rs`: closed union over the six object
super-kinds. -/
inductive Variant where
  | Item (v : Item)
  | Critter (v : Critter)
  | Scenery (v : Scenery)
  | Wall (v : Wall)
  | SqrTile (v : SqrTile)
  | Misc

/-- `Variant::kind` from `src/asset/proto.rs`. -/
def Variant.kind : Variant → ExactEntityKind
  | .Item v => ExactEntityKind.Item v.item.kind
  | .Critter _ => ExactEntityKind.Critter
  | .Scenery v => ExactEntityKind.Scenery v.scenery.kind
  | .Wall _ => ExactEntityKind.Wall
  | .SqrTile _ => ExactEntityKind.SqrTile
  | .Misc => ExactEntityKind.Misc

/-- `Variant::item` from `src/asset/proto.rs`. -/
def Variant.item : Variant → Option Vault13.Item
  | .Item v => some v
  | _ => none

/-- `Variant::critter` from `src/asset/proto.rs`. -/
def Variant.critter : Variant → Option Vault13.Critter
  | .Critter v => some v
  | _ => none

/-- `Variant::scenery` from `src/asset/proto.rs`. -/
def Variant.scenery : Variant → Option Vault13.Scenery
  | .Scenery v => some v
  | _ => none

/-- `Variant::wall` from `src/asset/proto.rs`. -/
def Variant.wall : Variant → Option Vault13.Wall
  | .Wall v => some v
  | _ => none

/-- `Variant::sqr_tile` from `src/asset/proto.rs`. -/
def Variant.sqr_tile : Variant → Option Vault13.SqrTile
  | .SqrTile v => some v
  | _ => none

/-- `Variant::is_misc` from `src/asset/proto.rs`. -/
def Variant.is_misc : Variant → Bool
  | .Misc => true
  | _ => false

/-- `Proto` from `src/asset/proto.rs`: the root record for one static
object template. -/
structure Proto where
  pid : Pid
  message_id : Int
  fid : FrameId
  light_radius : Int
  light_intensity : Int
  flags : BitFlags Flag
  flags_ext : BitFlags FlagExt
  script_id : Option Nat
  proto : Variant

/-- `Proto::kind` from `src/asset/proto.rs`. -/
def Proto.kind (p : Proto) : ExactEntityKind := p.proto.kind

/-- `proto_entity_kinds` from `src/asset/proto.rs`:
`enum_iter(..=EntityKind::Misc)`. -/
def proto_entity_kinds : List EntityKind := enum_iter EntityKind.Misc

/-- The six narrowing probes of a `Variant`, in declaration order: whether
each of `item()`, `critter()`, `scenery()`, `wall()`, `sqr_tile()` returns
`Some`, and the result of `is_misc()`. -/
def Variant.probes (v : Variant) : List Bool :=
  [v.item.isSome, v.critter.isSome, v.scenery.isSome, v.wall.isSome,
   v.sqr_tile.isSome, v.is_misc]

/-- Constructor discriminant of an `ItemVariant` (which of the seven cases
is active), independent of the payload. -/
def ItemVariant.tag : ItemVariant → Nat
  | .Armor _ => 0
  | .Container _ => 1
  | .Drug _ => 2
  | .Weapon _ => 3
  | .Ammo _ => 4
  | .Misc _ => 5
  | .Key _ => 6

/-- C1: for every constructed `Variant` value, `Variant::kind()` is pure,
total and stable — equal inputs yield equal results, and each input is
mapped to exactly one `ExactEntityKind`, with no failure case. -/
theorem Variant.kind_total_stable (v w : Variant) (h : v = w) :
    v.kind = w.kind ∧ ∃! k : ExactEntityKind, v.kind = k :=
  ⟨by rw [h], ⟨v.kind, rfl, fun _ hk => hk.symm⟩⟩

/-- Witness for C1: the theorem applied at the concrete input
`Variant::Misc`. -/
theorem Variant.kind_total_stable_witness :
    Variant.Misc.kind = Variant.Misc.kind ∧
      ∃! k : ExactEntityKind, Variant.Misc.kind = k :=
  Variant.kind_total_stable Variant.Misc Variant.Misc rfl

/-- C2: for every `Variant` value, exactly one of the six narrowing probes
(`item()`, `critter()`, `scenery()`, `wall()`, `sqr_tile()` returning
`Some`, and `is_misc()` for the `Misc` case) reports true, and the one
succeeding accessor returns the active case's payload. -/
theorem Variant.exactly_one_accessor (v : Variant) :
    v.probes.count true = 1 ∧
      (match v with
       | .Item i => v.item = some i
       | .Critter c => v.critter = some c
       | .Scenery s => v.scenery = some s
       | .Wall w => v.wall = some w
       | .SqrTile t => v.sqr_tile = some t
       | .Misc => v.is_misc = true) := by
  cases v <;> exact ⟨rfl, rfl⟩

/-- C3: `ItemVariant::kind()` is a bijection onto cases — two `ItemVariant`
values receive the same `ItemKind` exactly when they are the same case, so
all seven cases map to pairwise distinct kinds and each case maps to
exactly one kind. -/
theorem ItemVariant.kind_bijection (v w : ItemVariant) :
    v.kind = w.kind ↔ v.tag = w.tag := by
  cases v <;> cases w <;> simp [ItemVariant.kind, ItemVariant.tag]

/-- C4: `SceneryVariant::kind()` sends a Ladder with direction `Up` to
`SceneryKind::LadderUp` and one with direction `Down` to
`SceneryKind::LadderDown`, while Door, Stairs, Elevator and Misc each map
one-to-one to their fixed `SceneryKind`. -/
theorem SceneryVariant.kind_mapping :
    (∀ e, (SceneryVariant.Ladder ⟨LadderKind.Up, e⟩).kind = SceneryKind.LadderUp) ∧
    (∀ e, (SceneryVariant.Ladder ⟨LadderKind.Down, e⟩).kind = SceneryKind.LadderDown) ∧
    (∀ d, (SceneryVariant.Door d).kind = SceneryKind.Door) ∧
    (∀ s, (SceneryVariant.Stairs s).kind = SceneryKind.Stairs) ∧
    (∀ e, (SceneryVariant.Elevator e).kind = SceneryKind.Elevator) ∧
    SceneryVariant.Misc.kind = SceneryKind.Misc :=
  ⟨fun _ => rfl, fun _ => rfl, fun _ => rfl, fun _ => rfl, fun _ => rfl, rfl⟩

/-- C5: `proto_entity_kinds()` is the finite sequence consisting exactly of
the entity kinds up to and including the `Misc` sentinel, in declaration
order; it is a proper initial segment of the full enumeration (the
remaining kinds, all declared after `Misc`, are exactly the ones excluded),
and every produced kind precedes or equals `Misc` in declaration order. As
a pure value it is the same sequence on every invocation. -/
theorem proto_entity_kinds_spec :
    proto_entity_kinds = [EntityKind.Item, EntityKind.Critter, EntityKind.Scenery,
      EntityKind.Wall, EntityKind.SqrTile, EntityKind.Misc] ∧
    proto_entity_kinds ++ [EntityKind.Interface, EntityKind.Inventory, EntityKind.Head,
      EntityKind.Background, EntityKind.Skilldex] = EntityKind.all ∧
    proto_entity_kinds.all (fun k => decide (k.ord ≤ EntityKind.Misc.ord)) = true :=
  ⟨rfl, rfl, rfl⟩

/-- C6: `Rect::contains(x, y)` holds exactly when `left <= x < right` and
`top <= y < bottom` (half-open semantics), and on
`r = Rect::with_size(0, 0, 10, 10)`: `r.contains(0,0)` is true,
`r.contains(10,10)` is false, `r.contains(9,9)` is true and
`r.contains(-1,5)` is false. -/
theorem Rect.contains_halfopen_spec (r : Rect) (x y : Int) :
    (r.contains x y = true ↔ r.left ≤ x ∧ x < r.right ∧ r.top ≤ y ∧ y < r.bottom) ∧
    (Rect.with_size 0 0 10 10).contains 0 0 = true ∧
    (Rect.with_size 0 0 10 10).contains 10 10 = false ∧
    (Rect.with_size 0 0 10 10).contains 9 9 = true ∧
    (Rect.with_size 0 0 10 10).contains (-1) 5 = false := by
  refine ⟨?_, by decide, by decide, by decide, by decide⟩
  simp [Rect.contains, and_assoc]

/-- C7: intersecting the disjoint rects `Rect::with_size(0,0,5,5)` and
`Rect::with_size(10,10,5,5)` yields the inverted rect with `left = 10`,
`top = 10`, `right = 5`, `bottom = 5`, on which `is_empty()` is true; in
general `intersect` is the componentwise max of left/top and min of
right/bottom with no special-casing of disjoint inputs. -/
theorem Rect.intersect_disjoint_spec :
    (Rect.with_size 0 0 5 5).intersect (Rect.with_size 10 10 5 5) = ⟨10, 10, 5, 5⟩ ∧
    ((Rect.with_size 0 0 5 5).intersect (Rect.with_size 10 10 5 5)).is_empty = true ∧
    ∀ r other : Rect, r.intersect other = ⟨max r.left other.left, max r.top other.top,
      min r.right other.right, min r.bottom other.bottom⟩ :=
  ⟨by decide, by decide, fun _ _ => rfl⟩

/-- Counterexample for C8: the rect with `left = 0`, `top = 0`, `right = 0`,
`bottom = 5` has `left >= right` (it is degenerate, and indeed contains no
point), yet `is_empty()` returns false — refuting the claim that
`is_empty()` is true whenever `left >= right` or `top >= bottom`. -/
theorem Rect.is_empty_or_counterexample :
    (Rect.mk 0 0 0 5).left ≥ (Rect.mk 0 0 0 5).right ∧
    (Rect.mk 0 0 0 5).contains 0 2 = false ∧
    (Rect.mk 0 0 0 5).is_empty = false := by decide

/-- C8 (amended): `Rect::is_empty()` returns true iff `left >= right` AND
`top >= bottom`; an empty rect contains no point (but a rect that contains
no point need not report empty). -/
theorem Rect.is_empty_amended (r : Rect) :
    (r.is_empty = true ↔ r.left ≥ r.right ∧ r.top ≥ r.bottom) ∧
    ∀ x y : Int, (r.is_empty && r.contains x y) = false := by
  constructor
  · simp [Rect.is_empty]
  · intro x y
    cases he : r.is_empty with
    | false => rfl
    | true =>
      cases hc : r.contains x y with
      | false => rfl
      | true =>
        simp [Rect.is_empty] at he
        simp [Rect.contains] at hc
        exfalso
        omega

/-- Counterexample for C9: the pair `(i32::MAX, 0)` is representable, yet
`Rect::full().contains(i32::MAX, 0)` is false, because `contains` is
half-open and `full()`'s right edge equals `i32::MAX` — refuting the claim
that every representable pair is contained. -/
theorem Rect.full_contains_counterexample :
    Rect.full.contains i32_max 0 = false ∧
    i32_min ≤ i32_max ∧ i32_min ≤ (0 : Int) ∧ (0 : Int) ≤ i32_max := by decide

/-- C9 (amended): `Rect::full()` has left and top at the minimum and right
and bottom at the maximum representable signed-32-bit value, and it
contains every representable pair except those on the open right/bottom
edge: `contains(x, y)` is true for every representable pair with
`x < i32::MAX` and `y < i32::MAX`. -/
theorem Rect.full_amended (x y : Int) (hx1 : i32_min ≤ x) (hx2 : x < i32_max)
    (hy1 : i32_min ≤ y) (hy2 : y < i32_max) :
    Rect.full = Rect.mk i32_min i32_min i32_max i32_max ∧
    Rect.full.contains x y = true := by
  refine ⟨rfl, ?_⟩
  simp only [Rect.full, Rect.contains, Bool.and_eq_true, decide_eq_true_eq, ge_iff_le]
  norm_num [i32_min, i32_max] at hx1 hx2 hy1 hy2 ⊢
  omega

/-- Witness for C9 (amended): the theorem applied at the concrete
representable pair `(0, 0)`. -/
theorem Rect.full_amended_witness :
    (i32_min ≤ (0 : Int) ∧ (0 : Int) < i32_max) ∧
    Rect.full = Rect.mk i32_min i32_min i32_max i32_max ∧
    Rect.full.contains 0 0 = true :=
  ⟨⟨by decide, by decide⟩,
    Rect.full_amended 0 0 (by decide) (by decide) (by decide) (by decide)⟩

/-- C10: for all signed-32-bit integers `a` and `b`,
`Point::new(a, b).add(Point::new(-a, -b))` equals `Point::new(0, 0)`, with
negation and addition performed in two's-complement wraparound arithmetic —
including `a = i32::MIN`, where `-a` wraps to `a` itself. -/
theorem Point.add_neg_roundtrip (a b : Int) (ha1 : i32_min ≤ a) (ha2 : a ≤ i32_max)
    (hb1 : i32_min ≤ b) (hb2 : b ≤ i32_max) :
    (Point.new a b).add (Point.new (i32_neg a) (i32_neg b)) = Point.new 0 0 := by
  simp only [Point.add, Point.new, i32_add, i32_neg, wrap32, Point.mk.injEq]
  norm_num [i32_min, i32_max] at ha1 ha2 hb1 hb2
  constructor <;> omega

/-- Witness for C10: the theorem applied at the edge case
`a = i32::MIN`, `b = 3`, where wrapping negation sends `a` to itself. -/
theorem Point.add_neg_roundtrip_witness :
    (i32_min ≤ -(2 ^ 31 : Int) ∧ -(2 ^ 31 : Int) ≤ i32_max ∧
      i32_min ≤ (3 : Int) ∧ (3 : Int) ≤ i32_max) ∧
    (Point.new (-(2 ^ 31)) 3).add
      (Point.new (i32_neg (-(2 ^ 31))) (i32_neg 3)) = Point.new 0 0 :=
  ⟨⟨by decide, by decide, by decide, by decide⟩,
    Point.add_neg_roundtrip (-(2 ^ 31)) 3 (by decide) (by decide) (by decide) (by decide)⟩

end Vault13
